import Mathlib

/-
Verification of the circular-navigation state-and-reconciliation engine.

The definitions below are a shallow embedding of the JavaScript sources:
  StateManager            (js/core/index.js, the StateManager class)
  CircularNavManager      (js/core/index.js, the CircularNavManager class)
  DisplayManager          (js/state/DisplayManager.js)
  NodeManager             (js/state/DisplayManager.js, NodeManager class)
  PathManager             (js/visualization, PathManager class)
  OuterElementManager     (js/visualization/OuterElementManager.js)

Modelling conventions:
  - JavaScript object identity on hierarchy nodes is modelled by node ids
    (the source guarantees ids are unique within a tree snapshot), so
    strict equality between node references becomes equality of ids, and
    a nullable node reference becomes an Option Nat.
  - Date.now timestamps are naturals; the clock is held constant over one
    synchronous run of updateState (sub-millisecond in reality).
  - setTimeout is modelled by recording the scheduled firing time of
    finalizeTransition in a pending field; clearTimeout resets it.
  - The event bus (emit) is modelled by appending events to a trace.
  - External collaborators that are out of scope for the core
    (CacheManager.preload) are oracles: preload is a function id -> Bool
    that says whether the preload promise resolves.
  - Methods that are invoked by the source but defined nowhere in the
    repository (StateManager.handleDataChange, handleTransitionChange,
    handleErrorChange, VisualizationManager.updateSelection,
    StateManager.removeAllListeners) throw TypeError at the call site,
    exactly as JavaScript does when calling an undefined property.
  - Fallible code returns an Outcome: ok b models a normal return of b,
    error e models a thrown exception propagating to the caller.
-/

namespace CNav

/-- String constants used by the model (JavaScript error messages and the
single-space separator used by split and join). -/
def spaceStr : String := " "

def dataChangeErrMsg : String := "TypeError: this.handleDataChange is not a function"

def transitionChangeErrMsg : String := "TypeError: this.handleTransitionChange is not a function"

def errorChangeErrMsg : String := "TypeError: this.handleErrorChange is not a function"

def vizUpdateSelectionErrMsg : String := "TypeError: this.parent.viz.updateSelection is not a function"

def preloadFailedMsg : String := "preload rejected"

def removeAllListenersErrMsg : String := "TypeError: this.state.removeAllListeners is not a function"

def nullStateErrMsg : String := "TypeError: cannot read updateState of null"

/-- A JavaScript exception value, identified by its message. -/
structure JsError where
  msg : String
deriving DecidableEq

def dataChangeErr : JsError := ⟨dataChangeErrMsg⟩

def transitionChangeErr : JsError := ⟨transitionChangeErrMsg⟩

def errorChangeErr : JsError := ⟨errorChangeErrMsg⟩

def vizUpdateSelectionErr : JsError := ⟨vizUpdateSelectionErrMsg⟩

def preloadFailedErr : JsError := ⟨preloadFailedMsg⟩

def removeAllListenersErr : JsError := ⟨removeAllListenersErrMsg⟩

def nullStateErr : JsError := ⟨nullStateErrMsg⟩

/-- Result of a call: a normal return value, a thrown exception propagating
to the caller, or fuel exhaustion of the interpreter (never reached on the
concrete runs considered here). -/
inductive Outcome where
  | ok (b : Bool)
  | error (e : JsError)
  | outOfFuel
deriving DecidableEq

/-- The top-level fields of StateManager.state. -/
inductive StateField where
  | isInitialized
  | isDestroying
  | isTransitioning
  | isUpdating
  | isError
  | error
  | data
  | selectedNode
  | previousNode
  | zoomLevel
  | dimensions
  | contentLoaded
  | lastUpdate
deriving DecidableEq

/-- A field value as carried by a fieldChange event. -/
inductive FieldVal where
  | fvBool (b : Bool)
  | fvErr (e : Option JsError)
  | fvRef (r : Option Nat)
  | fvNum (n : Nat)
  | fvSet (s : List Nat)
deriving DecidableEq

/-- StateManager.state. Object-valued fields (data, dimensions) are modelled
as identity tokens (Option Nat); node references as node ids. -/
structure NavState where
  isInitialized : Bool
  isDestroying : Bool
  isTransitioning : Bool
  isUpdating : Bool
  isError : Bool
  error : Option JsError
  data : Option Nat
  selectedNode : Option Nat
  previousNode : Option Nat
  zoomLevel : Nat
  dimensions : Option Nat
  contentLoaded : List Nat
  lastUpdate : Nat
deriving DecidableEq

/-- The partial state object passed to updateState: a field is some v when
the corresponding key is present in the argument object. -/
structure Patch where
  isInitialized : Option Bool := none
  isDestroying : Option Bool := none
  isTransitioning : Option Bool := none
  isUpdating : Option Bool := none
  isError : Option Bool := none
  error : Option (Option JsError) := none
  data : Option (Option Nat) := none
  selectedNode : Option (Option Nat) := none
  previousNode : Option (Option Nat) := none
  zoomLevel : Option Nat := none
  dimensions : Option (Option Nat) := none
  contentLoaded : Option (List Nat) := none
  lastUpdate : Option Nat := none
deriving DecidableEq

/-- The merge this.state = obj-spread of this.state and the partial. -/
def applyPatch (s : NavState) (p : Patch) : NavState where
  isInitialized := p.isInitialized.getD s.isInitialized
  isDestroying := p.isDestroying.getD s.isDestroying
  isTransitioning := p.isTransitioning.getD s.isTransitioning
  isUpdating := p.isUpdating.getD s.isUpdating
  isError := p.isError.getD s.isError
  error := p.error.getD s.error
  data := p.data.getD s.data
  selectedNode := p.selectedNode.getD s.selectedNode
  previousNode := p.previousNode.getD s.previousNode
  zoomLevel := p.zoomLevel.getD s.zoomLevel
  dimensions := p.dimensions.getD s.dimensions
  contentLoaded := p.contentLoaded.getD s.contentLoaded
  lastUpdate := p.lastUpdate.getD s.lastUpdate

/-- One entry of the Object.keys(newState) loop of updateState: a key of the
partial whose value differs (identity comparison) from the oldState snapshot. -/
structure ChangeRec where
  fld : StateField
  oldVal : FieldVal
  newVal : FieldVal
deriving DecidableEq

/-- The value of a state field, injected into FieldVal. -/
def fieldVal (s : NavState) : StateField → FieldVal
  | .isInitialized => .fvBool s.isInitialized
  | .isDestroying => .fvBool s.isDestroying
  | .isTransitioning => .fvBool s.isTransitioning
  | .isUpdating => .fvBool s.isUpdating
  | .isError => .fvBool s.isError
  | .error => .fvErr s.error
  | .data => .fvRef s.data
  | .selectedNode => .fvRef s.selectedNode
  | .previousNode => .fvRef s.previousNode
  | .zoomLevel => .fvNum s.zoomLevel
  | .dimensions => .fvRef s.dimensions
  | .contentLoaded => .fvSet s.contentLoaded
  | .lastUpdate => .fvNum s.lastUpdate

/-- The value a patch carries for a field, when the key is present. -/
def partialGet (p : Patch) : StateField → Option FieldVal
  | .isInitialized => p.isInitialized.map .fvBool
  | .isDestroying => p.isDestroying.map .fvBool
  | .isTransitioning => p.isTransitioning.map .fvBool
  | .isUpdating => p.isUpdating.map .fvBool
  | .isError => p.isError.map .fvBool
  | .error => p.error.map .fvErr
  | .data => p.data.map .fvRef
  | .selectedNode => p.selectedNode.map .fvRef
  | .previousNode => p.previousNode.map .fvRef
  | .zoomLevel => p.zoomLevel.map .fvNum
  | .dimensions => p.dimensions.map .fvRef
  | .contentLoaded => p.contentLoaded.map .fvSet
  | .lastUpdate => p.lastUpdate.map .fvNum

/-- One step of the Object.keys loop: emit a record when the key is present
in the partial and its value differs from the snapshot value. -/
def fieldRecs (f : StateField) (pv : Option FieldVal) (ov : FieldVal) : List ChangeRec :=
  match pv with
  | some v => if v ≠ ov then [⟨f, ov, v⟩] else []
  | none => []

/-- The key iteration order, modelled as field-declaration order. -/
def fieldOrder : List StateField :=
  [.isInitialized, .isDestroying, .isTransitioning, .isUpdating, .isError,
   .error, .data, .selectedNode, .previousNode, .zoomLevel, .dimensions,
   .contentLoaded, .lastUpdate]

/-- The fieldChange records produced by the Object.keys(newState).forEach
loop of updateState: for every key present in the partial whose value
differs (identity comparison) from the oldState snapshot, one record with
the snapshot value and the partial value. -/
def changeRecords (p : Patch) (old : NavState) : List ChangeRec :=
  (fieldOrder.map (fun f => fieldRecs f (partialGet p f) (fieldVal old f))).flatten

/-- Events emitted on the StateManager bus (this.emit) plus preload requests
to the external cache and error reports forwarded to parent.handleError. -/
inductive Event where
  | transitionStart
  | transitionEnd
  | transitionError (e : JsError)
  | fieldChange (f : StateField) (oldVal newVal : FieldVal) (t : Nat)
  | preloadRequest (id : Nat)
  | parentError (e : JsError)
deriving DecidableEq

/-- The whole StateManager: this.state, the scheduled transitionTimeout
(firing time of finalizeTransition, none when no timer is pending), and the
trace of emissions so far. -/
structure SMState where
  st : NavState
  pending : Option Nat
  trace : List Event
deriving DecidableEq

def emitEv (e : Event) (m : SMState) : SMState :=
  { m with trace := m.trace ++ [e] }

/-- StateManager.startTransition: clearTimeout, raise the flag, emit. -/
def startTransition (m : SMState) : SMState :=
  emitEv .transitionStart
    { m with pending := none, st := { m.st with isTransitioning := true } }

/-- The hard-coded minimum transition time of endTransition (100 ms). -/
def minTransitionTime : Nat := 100

/-- StateManager.finalizeTransition. -/
def finalizeTransition (m : SMState) : SMState :=
  emitEv .transitionEnd
    { m with pending := none, st := { m.st with isTransitioning := false } }

/-- StateManager.endTransition at clock value now: finalize immediately when
minTransitionTime has already elapsed since lastUpdate, otherwise schedule
finalizeTransition for the remaining delay. -/
def endTransition (now : Nat) (m : SMState) : SMState :=
  let elapsed := now - m.st.lastUpdate
  if elapsed < minTransitionTime then
    { m with pending := some (now + (minTransitionTime - elapsed)) }
  else
    finalizeTransition m

/-- StateManager.handleTransitionError: force-clear the flag, store the
error, raise isError, emit; the caller then rethrows e. -/
def handleTransitionError (e : JsError) (m : SMState) : SMState :=
  emitEv (.transitionError e)
    { m with st := { m.st with isTransitioning := false, error := some e, isError := true } }

def mkFCEvent (now : Nat) (c : ChangeRec) : Event :=
  .fieldChange c.fld c.oldVal c.newVal now

/-- The emit loop of updateState, stamping Date.now on each event. -/
def emitChanges (p : Patch) (old : NavState) (now : Nat) (m : SMState) : SMState :=
  { m with trace := m.trace ++ (changeRecords p old).map (mkFCEvent now) }

def patchTransTrue : Patch := { isTransitioning := some true }

def patchTransFalse : Patch := { isTransitioning := some false }

def patchDestroying : Patch := { isDestroying := some true }

/-- StateManager.handleSelectionChange. us is the re-entrant updateState
(at the remaining fuel), preload the external cache oracle. The body:
  1. await updateState of isTransitioning true (before the try block, so a
     rejection here skips the finally);
  2. try: when the new node exists and its id is not in contentLoaded, await
     cache.preload and on success add the id; then call
     viz.updateSelection, which VisualizationManager does not define, so a
     TypeError is thrown;
  3. catch: forward the error to parent.handleError, do not rethrow;
  4. finally: await updateState of isTransitioning false (a rejection here
     propagates out of handleSelectionChange). -/
def handleSelectionChange (us : Patch → SMState → Outcome × SMState)
    (preload : Nat → Bool) (newNode _oldNode : Option Nat) (m : SMState) :
    Outcome × SMState :=
  match us patchTransTrue m with
  | (.ok _, m1) =>
    let tryStep : Option JsError × SMState :=
      match newNode with
      | some id =>
        if m1.st.contentLoaded.contains id then
          (some vizUpdateSelectionErr, m1)
        else
          let m2 := emitEv (.preloadRequest id) m1
          if preload id then
            let m3 := { m2 with st := { m2.st with contentLoaded := m2.st.contentLoaded.insert id } }
            (some vizUpdateSelectionErr, m3)
          else
            (some preloadFailedErr, m2)
      | none => (some vizUpdateSelectionErr, m1)
    let m4 :=
      match tryStep.1 with
      | some e => emitEv (.parentError e) tryStep.2
      | none => tryStep.2
    match us patchTransFalse m4 with
    | (.ok _, m5) => (.ok true, m5)
    | r => r
  | r => r

/-- StateManager.handleStateChange oldState newState, where newState is the
live this.state, read again at each comparison. The selection branch first
copies the previously selected node into previousNode, then awaits the
selection handler. The data, transition-flag and error-flag branches call
this.handleDataChange, this.handleTransitionChange and this.handleErrorChange,
none of which is defined on StateManager, so reaching any of those branches
throws a TypeError. -/
def handleStateChange (us : Patch → SMState → Outcome × SMState)
    (preload : Nat → Bool) (old : NavState) (m : SMState) : Outcome × SMState :=
  let selStep : Outcome × SMState :=
    if m.st.selectedNode ≠ old.selectedNode then
      let m1 :=
        if old.selectedNode.isSome then
          { m with st := { m.st with previousNode := old.selectedNode } }
        else m
      handleSelectionChange us preload m1.st.selectedNode old.selectedNode m1
    else (.ok true, m)
  match selStep with
  | (.ok _, m2) =>
    if m2.st.data ≠ old.data then (.error dataChangeErr, m2)
    else if m2.st.isTransitioning ≠ old.isTransitioning then (.error transitionChangeErr, m2)
    else if m2.st.isError ≠ old.isError then (.error errorChangeErr, m2)
    else (.ok true, m2)
  | r => r

/-- StateManager.updateState, interpreted with fuel bounding the re-entrant
recursion depth (two levels suffice for every run in the source). The body:
reject when isDestroying; startTransition; snapshot oldState; merge; run
handleStateChange (errors are caught, handleTransitionError stores them and
rethrows); emit the per-key change events; stamp lastUpdate; endTransition. -/
def updateState : Nat → (Nat → Bool) → Nat → Patch → SMState → Outcome × SMState
  | 0, _, _, _, m => (.outOfFuel, m)
  | fuel + 1, preload, now, p, m =>
    if m.st.isDestroying then (.ok false, m)
    else
      let m1 := startTransition m
      let old := m1.st
      let m2 := { m1 with st := applyPatch m1.st p }
      match handleStateChange (updateState fuel preload now) preload old m2 with
      | (.ok _, m3) =>
        let m4 := emitChanges p old now m3
        let m5 := { m4 with st := { m4.st with lastUpdate := now } }
        (.ok true, endTransition now m5)
      | (.error e, m3) => (.error e, handleTransitionError e m3)
      | (.outOfFuel, m3) => (.outOfFuel, m3)

/-- CircularNavManager, restricted to the pieces destroy touches: this.state
(null after a successful teardown) and the tracking maps of the three
reconcilers (key sets of nodeElements, pathElements, indicatorElements,
labelElements). -/
structure CNManager where
  state : Option SMState
  nodeElements : List Nat
  pathElements : List (Nat × Nat)
  indicatorElements : List Nat
  labelElements : List Nat
deriving DecidableEq

/-- CircularNavManager.destroy. The body awaits
this.state.updateState of isDestroying true (a TypeError when this.state is
null), cancels pending operations, then calls removeEventListeners, whose
last statement this.state.removeAllListeners() throws a TypeError because
StateManager defines no removeAllListeners; the catch rethrows. Everything
after removeEventListeners in the source (state.destroy, manager teardown,
DOM cleanup, reference nulling, the destroyed event) is unreachable, so the
tracking maps are returned unchanged. -/
def managerDestroy (fuel : Nat) (preload : Nat → Bool) (now : Nat)
    (g : CNManager) : Outcome × CNManager :=
  match g.state with
  | none => (.error nullStateErr, g)
  | some m =>
    match updateState fuel preload now patchDestroying m with
    | (.ok _, m2) => (.error removeAllListenersErr, { g with state := some m2 })
    | (.error e, m2) => (.error e, { g with state := some m2 })
    | (.outOfFuel, m2) => (.outOfFuel, { g with state := some m2 })

/-- A link between two hierarchy nodes, by node id (PathManager keys links
by source id and target id). -/
structure LinkEdge where
  source : Nat
  target : Nat
deriving DecidableEq

/-- A tree snapshot, as the depth and parent accessors that the selection
predicates read from d3 hierarchy nodes; nodes are addressed by id. -/
structure TreeModel where
  depth : Nat → Nat
  parent : Nat → Option Nat

/-- PathManager.isActivePath. Both the link and the selected node are
nullable; the depth-0, depth-1 and depth-2 branches follow the source, with
optional chaining on parent and on parent of parent. -/
def isActivePath (t : TreeModel) (link : Option LinkEdge) (sel : Option Nat) : Bool :=
  match link, sel with
  | none, _ => false
  | _, none => false
  | some l, some s =>
    if t.depth s = 0 then true
    else if t.depth s = 1 then
      (match t.parent s with
       | some p => l.source == p && l.target == s
       | none => false) || l.source == s
    else if t.depth s = 2 then
      l.target == s ||
      (match t.parent s with
       | some p => l.source == p
       | none => false) ||
      (match t.parent s with
       | some p =>
         match t.parent p with
         | some gp => l.source == gp && l.target == p
         | none => false
       | none => false)
    else false

/-- PathManager.isSiblingPath. -/
def isSiblingPath (t : TreeModel) (link : Option LinkEdge) (sel : Option Nat) : Bool :=
  match link, sel with
  | none, _ => false
  | _, none => false
  | some l, some s =>
    if t.depth s = 1 then
      match t.parent s with
      | some p => l.source == p && l.target != s
      | none => false
    else if t.depth s = 2 then
      (match t.parent s with
       | some p => l.source == p && l.target != s
       | none => false) ||
      (match t.parent s with
       | some p =>
         match t.parent p with
         | some gp => l.source != gp && t.depth l.target == 2 && l.target != s
         | none => false
       | none => false)
    else false

/-- The ancestor-or-self chain of a node, following parent links, with fuel. -/
def ancestorChain (t : TreeModel) : Nat → Nat → List Nat
  | 0, _ => []
  | fuel + 1, s =>
    s :: (match t.parent s with
          | some p => ancestorChain t fuel p
          | none => [])

/-- Modelled from the spec: the active path is the sequence of edges from
the root to the currently selected node, so a link lies on it exactly when
its target is on the ancestor-or-self chain of the selection and its source
is the parent of that target. This is the comparison point for the claimed
characterisation of isActivePath; it is not part of the source. -/
def spec_linkOnRootPath (t : TreeModel) (l : LinkEdge) (s : Nat) : Bool :=
  (ancestorChain t (t.depth s + 1) s).any
    (fun a => l.target == a && t.parent a == some l.source)

/-- Well-formedness facts about the selection s used to relate the source
predicates to the spec wording: depth at most 2, parent depths decrease by
one along the chain of s, and a depth-0 node has no parent. -/
def WellFormedAt (t : TreeModel) (s : Nat) : Prop :=
  t.depth s ≤ 2 ∧
  (∀ p, t.parent s = some p → t.depth p + 1 = t.depth s) ∧
  (∀ p gp, t.parent s = some p → t.parent p = some gp → t.depth gp + 1 = t.depth p) ∧
  (∀ x, t.depth x = 0 → t.parent x = none)

/-- NodeManager.isActiveNode: with no selection, only the central node is
active; otherwise the selection itself, the parent of the selection, and the
central node. -/
def isActiveNode (t : TreeModel) (n : Nat) (sel : Option Nat) : Bool :=
  match sel with
  | none => t.depth n == 0
  | some s =>
    n == s ||
    (match t.parent s with
     | some p => n == p
     | none => false) ||
    t.depth n == 0

/-- NodeManager.isSiblingNode: never for the central node or an empty
selection; otherwise sharing the parent of the selection without being the
selection. -/
def isSiblingNode (t : TreeModel) (n : Nat) (sel : Option Nat) : Bool :=
  match sel with
  | none => false
  | some s =>
    if t.depth n == 0 then false
    else t.parent n == t.parent s && n != s

/-- The responsive profiles of DisplayManager. -/
inductive Profile where
  | mobile
  | tablet
  | desktop
deriving DecidableEq

/-- DisplayManager.getActiveProfile: the source reads width from
window.innerWidth and compares it against the small and medium breakpoints
of config.dimensions.breakpoints. -/
def getActiveProfile (width small medium : Nat) : Profile :=
  if width < small then .mobile
  else if width < medium then .tablet
  else .desktop

/-- The profile component of DisplayManager.calculateDimensions, which is
obtained by calling getActiveProfile (the container rect is not consulted
for profile selection). -/
def calculateDimensionsProfile (innerWidth small medium : Nat) : Profile :=
  getActiveProfile innerWidth small medium

/-- A hierarchy node as consumed by the reconcilers: id and depth. -/
structure HN where
  id : Nat
  depth : Nat
deriving DecidableEq

/-- A hierarchy snapshot: the descendants collection and the derived links
collection of the d3 hierarchy root that update receives. -/
structure HierData where
  nodes : List HN
  links : List LinkEdge
deriving DecidableEq

/-- NodeManager tracking state: the reentrancy flag and the key set of the
nodeElements map. -/
structure NodeRec where
  isUpdating : Bool
  nodeElements : List Nat
deriving DecidableEq

/-- The synchronous part of NodeManager.update: return immediately when data
is missing or a previous update is still in flight; otherwise raise
isUpdating and apply the keyed enter/exit diff to the nodeElements map
(keys are ids of descendants of depth below 2). The Bool reports whether the
update body ran (animations were started). The finally clause clearing
isUpdating is nodeSettle below. -/
def nodeManagerUpdate (r : NodeRec) (data : Option HierData) : NodeRec × Bool :=
  match data with
  | none => (r, false)
  | some d =>
    if r.isUpdating then (r, false)
    else
      let newKeys := (d.nodes.filter (fun h => h.depth < 2)).map HN.id
      let kept := r.nodeElements.filter (fun k => newKeys.contains k)
      let entered := newKeys.filter (fun k => !(r.nodeElements.contains k))
      ({ isUpdating := true, nodeElements := kept ++ entered }, true)

/-- The finally clause of NodeManager.update. -/
def nodeSettle (r : NodeRec) : NodeRec :=
  { r with isUpdating := false }

/-- PathManager tracking state: the reentrancy flag and the key set of the
pathElements map (keyed by source id and target id, as getLinkId). -/
structure PathRec where
  isUpdating : Bool
  pathElements : List (Nat × Nat)
deriving DecidableEq

/-- The synchronous part of PathManager.update, same protocol as
nodeManagerUpdate with link keys from data.links. -/
def pathManagerUpdate (r : PathRec) (data : Option HierData) : PathRec × Bool :=
  match data with
  | none => (r, false)
  | some d =>
    if r.isUpdating then (r, false)
    else
      let newKeys := d.links.map (fun l => (l.source, l.target))
      let kept := r.pathElements.filter (fun k => newKeys.contains k)
      let entered := newKeys.filter (fun k => !(r.pathElements.contains k))
      ({ isUpdating := true, pathElements := kept ++ entered }, true)

/-- The finally clause of PathManager.update. -/
def pathSettle (r : PathRec) : PathRec :=
  { r with isUpdating := false }

/-- OuterElementManager tracking state: the reentrancy flag and the key sets
of the indicatorElements and labelElements maps. -/
structure OuterRec where
  isUpdating : Bool
  indicatorElements : List Nat
  labelElements : List Nat
deriving DecidableEq

/-- The synchronous part of OuterElementManager.update, same protocol with
keys the ids of depth-2 descendants, applied to both maps. -/
def outerManagerUpdate (r : OuterRec) (data : Option HierData) : OuterRec × Bool :=
  match data with
  | none => (r, false)
  | some d =>
    if r.isUpdating then (r, false)
    else
      let newKeys := (d.nodes.filter (fun h => h.depth == 2)).map HN.id
      let keptI := r.indicatorElements.filter (fun k => newKeys.contains k)
      let enteredI := newKeys.filter (fun k => !(r.indicatorElements.contains k))
      let keptL := r.labelElements.filter (fun k => newKeys.contains k)
      let enteredL := newKeys.filter (fun k => !(r.labelElements.contains k))
      ({ isUpdating := true,
         indicatorElements := keptI ++ enteredI,
         labelElements := keptL ++ enteredL }, true)

/-- The finally clause of OuterElementManager.update. -/
def outerSettle (r : OuterRec) : OuterRec :=
  { r with isUpdating := false }

inductive LayoutKind where
  | single
  | double
deriving DecidableEq

/-- The text part of the layout computed by
OuterElementManager.calculateLabelLayout (the geometric fields width,
height, x, y use real-valued trigonometry on configuration sizes and are
irrelevant to the line-splitting claim, so they are omitted). -/
structure LabelLayout where
  kind : LayoutKind
  text : String := ""
  firstLine : String := ""
  secondLine : String := ""
deriving DecidableEq

/-- JavaScript String.split with the single-space separator, as used on the
label text: the string is cut at every space character and empty segments
are preserved. Implemented by structural recursion on the character list so
that concrete label layouts evaluate inside the kernel. -/
def jsSplitOnSpaceAux : List Char → List Char → List String
  | [], acc => [String.mk acc.reverse]
  | c :: cs, acc =>
    if c = ' ' then String.mk acc.reverse :: jsSplitOnSpaceAux cs []
    else jsSplitOnSpaceAux cs (c :: acc)

def jsSplitOnSpace (s : String) : List String :=
  jsSplitOnSpaceAux s.data []

/-- OuterElementManager.calculateLabelLayout, text-splitting part. words is
text.split on a single space; the double layout is chosen when there is more
than one word and either the total length exceeds the longText threshold or
there are more than two words; the split point is the ceiling of half the
word count, moved one word earlier when the joined first half is longer than
1.5 times the joined second half (stated over naturals as 2 times the first
length exceeding 3 times the second). -/
def calculateLabelLayout (text : String) (longTextThreshold : Nat) : LabelLayout :=
  let words := jsSplitOnSpace text
  let totalLength := text.length
  let wordCount := words.length
  if wordCount > 1 ∧ (totalLength > longTextThreshold ∨ wordCount > 2) then
    let midpoint := (wordCount + 1) / 2
    let firstHalf := String.intercalate spaceStr (words.take midpoint)
    let secondHalf := String.intercalate spaceStr (words.drop midpoint)
    let midpoint :=
      if 2 * firstHalf.length > 3 * secondHalf.length then midpoint - 1 else midpoint
    { kind := .double,
      firstLine := String.intercalate spaceStr (words.take midpoint),
      secondLine := String.intercalate spaceStr (words.drop midpoint) }
  else
    { kind := .single, text := text }

/-- Discriminator for fieldChange events. -/
def isFC : Event → Bool
  | .fieldChange _ _ _ _ => true
  | _ => false

/-- The fieldChange events of a trace. -/
def filterFC (l : List Event) : List Event :=
  l.filter isFC

/-- Number of preload requests for a given id in a trace. -/
def countPreload (l : List Event) (id : Nat) : Nat :=
  (l.filter (fun e => e == Event.preloadRequest id)).length

/-- A preload oracle that always resolves. -/
def preloadAlways : Nat → Bool := fun _ => true

/-- The initial state of StateManager (constructor values; zoomLevel 1,
lastUpdate from construction time, taken as 0). -/
def navS0 : NavState where
  isInitialized := false
  isDestroying := false
  isTransitioning := false
  isUpdating := false
  isError := false
  error := none
  data := none
  selectedNode := none
  previousNode := none
  zoomLevel := 1
  dimensions := none
  contentLoaded := []
  lastUpdate := 0

def smM0 : SMState := ⟨navS0, none, []⟩

/-- A state in which node 1 is currently selected. -/
def navSA : NavState := { navS0 with selectedNode := some 1 }

def smMA : SMState := ⟨navSA, none, []⟩

def patchSelectTwo : Patch := { selectedNode := some (some 2) }

def patchZoomTwo : Patch := { zoomLevel := some 2 }

/-- Depth accessor of the example tree R(0) with children 1 and 2 at depth 1
and grandchildren 3 and 4 (children of 1) at depth 2. -/
def exTreeDepth : Nat → Nat := fun n =>
  if n = 0 then 0 else if n ≤ 2 then 1 else 2

/-- Parent accessor of the example tree. -/
def exTreeParent : Nat → Option Nat := fun n =>
  if n = 0 then none
  else if n ≤ 2 then some 0
  else if n ≤ 4 then some 1
  else none

def exTree : TreeModel := ⟨exTreeDepth, exTreeParent⟩

/-- A freshly constructed manager with nonempty tracking maps. -/
def mgr0 : CNManager where
  state := some smM0
  nodeElements := [0, 1, 2]
  pathElements := [(0, 1), (0, 2)]
  indicatorElements := [3, 4]
  labelElements := [3, 4]

/-- Example label text for the layout witness. -/
def exLabelText : String := "alpha beta gamma"

def exLabelFirst : String := "alpha"

def exLabelSecond : String := "beta gamma"

theorem filterFC_append (a b : List Event) :
    filterFC (a ++ b) = filterFC a ++ filterFC b := by
  simp [filterFC, List.filter_append]

theorem filterFC_fcMap (now : Nat) (l : List ChangeRec) :
    filterFC (l.map (mkFCEvent now)) = l.map (mkFCEvent now) := by
  induction l with
  | nil => rfl
  | cons c t ih => simp [filterFC, List.filter_cons, mkFCEvent, isFC, ih]

/-- Evaluation of the re-entrant updateState with partial isTransitioning
true on a non-destroying store: the merge is a no-op on the already-raised
flag, no handler branch fires, no change event is emitted, lastUpdate is
stamped and finalizeTransition is scheduled for now plus the minimum. -/
theorem updateState_transTrue (fuel : Nat) (preload : Nat → Bool) (now : Nat)
    (m : SMState) (h : m.st.isDestroying = false) :
    updateState (fuel + 1) preload now patchTransTrue m =
      (.ok true,
       ⟨{ m.st with isTransitioning := true, lastUpdate := now },
        some (now + minTransitionTime), m.trace ++ [.transitionStart]⟩) := by
  simp [updateState, h, startTransition, emitEv, applyPatch, patchTransTrue,
        handleStateChange, emitChanges, changeRecords, fieldOrder, fieldRecs,
        partialGet, fieldVal, endTransition, minTransitionTime, finalizeTransition]

/-- Evaluation of the re-entrant updateState with partial isTransitioning
false on a non-destroying store: the snapshot is taken after startTransition
raised the flag, so the merge changes it, handleStateChange reaches the
transition-flag branch and the undefined handleTransitionChange throws;
handleTransitionError stores the error and the call rejects. -/
theorem updateState_transFalse (fuel : Nat) (preload : Nat → Bool) (now : Nat)
    (m : SMState) (h : m.st.isDestroying = false) :
    updateState (fuel + 1) preload now patchTransFalse m =
      (.error transitionChangeErr,
       { st := { m.st with isTransitioning := false, error := some transitionChangeErr, isError := true },
         pending := none,
         trace := m.trace ++ [.transitionStart, .transitionError transitionChangeErr] }) := by
  simp [updateState, h, startTransition, emitEv, applyPatch, patchTransFalse,
        handleStateChange, handleTransitionError]

/-- When the selection handler returns normally (which requires the store to
be in its destroying phase, so that both re-entrant updateState calls are
rejected by the guard), it has appended no fieldChange event to the trace. -/
theorem selectionChange_ok_trace (fuel : Nat) (preload : Nat → Bool) (now : Nat)
    (nn oldN : Option Nat) (m : SMState) (b : Bool) (m2 : SMState)
    (h : handleSelectionChange (updateState fuel preload now) preload nn oldN m = (.ok b, m2)) :
    filterFC m2.trace = filterFC m.trace := by
  cases fuel with
  | zero => simp [handleSelectionChange, updateState] at h
  | succ n =>
    cases hd : m.st.isDestroying with
    | true =>
      rcases nn with _ | id
      · simp [handleSelectionChange, updateState, hd, emitEv] at h
        obtain ⟨-, rfl⟩ := h
        simp [filterFC, List.filter_append, isFC]
      · by_cases hmem : id ∈ m.st.contentLoaded <;>
          by_cases hp : preload id <;>
          simp [handleSelectionChange, updateState, hd, emitEv, hmem, hp] at h <;>
          (obtain ⟨-, rfl⟩ := h; simp [filterFC, List.filter_append, isFC])
    | false =>
      rcases nn with _ | id
      · simp [handleSelectionChange, updateState_transTrue, updateState_transFalse,
              hd, emitEv] at h
      · by_cases hmem : id ∈ m.st.contentLoaded <;>
          by_cases hp : preload id <;>
          simp [handleSelectionChange, updateState_transTrue, updateState_transFalse,
                hd, emitEv, hmem, hp] at h

/-- When handleStateChange returns normally it has appended no fieldChange
event to the trace, and the transition flag equals its snapshot value. -/
theorem stateChange_ok (fuel : Nat) (preload : Nat → Bool) (now : Nat)
    (old : NavState) (m : SMState) (b : Bool) (m2 : SMState)
    (h : handleStateChange (updateState fuel preload now) preload old m = (.ok b, m2)) :
    filterFC m2.trace = filterFC m.trace ∧ m2.st.isTransitioning = old.isTransitioning := by
  by_cases hsel : m.st.selectedNode = old.selectedNode
  · simp only [handleStateChange, hsel, ne_eq, not_true_eq_false, if_false] at h
    by_cases hdata : m.st.data = old.data <;>
      by_cases htr : m.st.isTransitioning = old.isTransitioning <;>
      by_cases herr : m.st.isError = old.isError <;>
      simp [hdata, htr, herr] at h
    obtain ⟨-, rfl⟩ := h
    exact ⟨rfl, htr⟩
  · by_cases hprev : old.selectedNode.isSome
    · simp only [handleStateChange, ne_eq, hsel, not_false_eq_true, if_true, hprev,
                 if_pos] at h
      rcases hh : handleSelectionChange (updateState fuel preload now) preload
          m.st.selectedNode old.selectedNode
          { m with st := { m.st with previousNode := old.selectedNode } } with ⟨o, mm⟩
      rw [hh] at h
      cases o with
      | ok bb =>
        have htrace := selectionChange_ok_trace fuel preload now
          m.st.selectedNode old.selectedNode _ bb mm hh
        by_cases hdata : mm.st.data = old.data <;>
          by_cases htr : mm.st.isTransitioning = old.isTransitioning <;>
          by_cases herr : mm.st.isError = old.isError <;>
          simp [hdata, htr, herr] at h
        obtain ⟨-, rfl⟩ := h
        exact ⟨htrace, htr⟩
      | error e => simp at h
      | outOfFuel => simp at h
    · simp only [handleStateChange, ne_eq, hsel, not_false_eq_true, if_true, hprev,
                 Bool.not_eq_true, Bool.false_eq_true, if_false] at h
      rcases hh : handleSelectionChange (updateState fuel preload now) preload
          m.st.selectedNode old.selectedNode m with ⟨o, mm⟩
      rw [hh] at h
      cases o with
      | ok bb =>
        have htrace := selectionChange_ok_trace fuel preload now
          m.st.selectedNode old.selectedNode _ bb mm hh
        by_cases hdata : mm.st.data = old.data <;>
          by_cases htr : mm.st.isTransitioning = old.isTransitioning <;>
          by_cases herr : mm.st.isError = old.isError <;>
          simp [hdata, htr, herr] at h
        obtain ⟨-, rfl⟩ := h
        exact ⟨htrace, htr⟩
      | error e => simp at h
      | outOfFuel => simp at h

/-- Shape of a successful updateState run: the guard passed, the snapshot is
the pre-call state with the flag raised, handleStateChange returned normally
on the merged state, and the result is endTransition applied after the emit
loop and the lastUpdate stamp. -/
theorem updateState_ok_shape (n : Nat) (preload : Nat → Bool) (now : Nat) (p : Patch)
    (S : NavState) (pend : Option Nat) (tr : List Event) (m2 : SMState)
    (h : updateState (n + 1) preload now p ⟨S, pend, tr⟩ = (.ok true, m2)) :
    ∃ bb m3,
      handleStateChange (updateState n preload now) preload
        { S with isTransitioning := true }
        { st := applyPatch { S with isTransitioning := true } p,
          pending := none, trace := tr ++ [Event.transitionStart] } = (.ok bb, m3) ∧
      m2 = endTransition now
        { st := { m3.st with lastUpdate := now },
          pending := m3.pending,
          trace := m3.trace ++
            (changeRecords p { S with isTransitioning := true }).map (mkFCEvent now) } := by
  by_cases hd : S.isDestroying
  · simp [updateState, hd] at h
  · rw [Bool.not_eq_true] at hd
    simp only [updateState, startTransition, emitEv, emitChanges, hd,
               Bool.false_eq_true, if_false] at h
    split at h
    · rename_i bb m3 heq
      cases h
      rw [hd]
      exact ⟨bb, m3, heq, rfl⟩
    · rename_i e m3 heq
      simp at h
    · rename_i m3 heq
      simp at h

/-- Every record of the emit loop carries the snapshot value as oldValue and
the value the partial names as newValue. -/
theorem changeRecords_spec (p : Patch) (old : NavState) :
    ∀ c ∈ changeRecords p old,
      c.oldVal = fieldVal old c.fld ∧ partialGet p c.fld = some c.newVal := by
  intro c hc
  unfold changeRecords at hc
  simp only [List.mem_flatten, List.mem_map] at hc
  obtain ⟨l, ⟨f, hf, rfl⟩, hcl⟩ := hc
  unfold fieldRecs at hcl
  rcases hpf : partialGet p f with _ | v
  · rw [hpf] at hcl
    simp at hcl
  · rw [hpf] at hcl
    by_cases hne : v = fieldVal old f
    · simp [hne] at hcl
    · simp [hne] at hcl
      subst hcl
      exact ⟨rfl, by rw [hpf]⟩

/-- Raising the transition flag in the snapshot leaves every other field
value unchanged. -/
theorem fieldVal_raiseFlag (S : NavState) (f : StateField) (hf : f ≠ .isTransitioning) :
    fieldVal { S with isTransitioning := true } f = fieldVal S f := by
  cases f <;> first | rfl | exact absurd rfl hf

/-- C1 counterexample. With node 1 selected, updateState with partial
selectedNode 2 passes the destroying guard and its side-effect handler sets
previousNode from none to some 1, yet the trace of the whole run contains no
fieldChange event at all (in particular no previousNodeChange event): the
claim that every changed top-level field, including fields changed by the
side-effect handlers, gets a change event is false at this input. -/
theorem previousNodeChangeOmitted :
    navSA.previousNode = none ∧
    (updateState 3 preloadAlways 1000 patchSelectTwo smMA).1 ≠ Outcome.ok false ∧
    (updateState 3 preloadAlways 1000 patchSelectTwo smMA).2.st.previousNode = some 1 ∧
    filterFC (updateState 3 preloadAlways 1000 patchSelectTwo smMA).2.trace = [] := by
  decide

/-- C1 amended: a completed updateState call emits fieldChange events exactly
for the keys named in the partial whose value differs from the snapshot taken
after startTransition raised the flag; every such event carries the value the
partial names as newValue, and for every field other than isTransitioning the
oldValue is the field value immediately before the call. Fields changed only
by the side-effect handlers (such as previousNode) emit no event. -/
theorem updateStateEmitsOnlyPatchKeys (fuel : Nat) (preload : Nat → Bool) (now : Nat)
    (p : Patch) (S : NavState) (pend : Option Nat) (tr : List Event) (m2 : SMState)
    (h : updateState fuel preload now p ⟨S, pend, tr⟩ = (.ok true, m2)) :
    filterFC m2.trace =
      filterFC tr ++ (changeRecords p { S with isTransitioning := true }).map (mkFCEvent now) ∧
    ∀ c ∈ changeRecords p { S with isTransitioning := true },
      partialGet p c.fld = some c.newVal ∧
      (c.fld ≠ .isTransitioning → c.oldVal = fieldVal S c.fld) := by
  constructor
  · cases fuel with
    | zero => simp [updateState] at h
    | succ n =>
      obtain ⟨bb, m3, hh, rfl⟩ := updateState_ok_shape n preload now p S pend tr m2 h
      have hpres := stateChange_ok n preload now _ _ bb m3 hh
      have h1 : filterFC m3.trace = filterFC tr := by
        rw [hpres.1, filterFC_append]
        simp [filterFC, isFC]
      simp [endTransition, minTransitionTime, filterFC_append, filterFC_fcMap, h1]
  · intro c hc
    have hspec := changeRecords_spec p { S with isTransitioning := true } c hc
    exact ⟨hspec.2, fun hne => by rw [hspec.1, fieldVal_raiseFlag S c.fld hne]⟩

/-- C1 witness: a concrete completed run (partial zoomLevel 2 from the fresh
store) whose fieldChange events are exactly the single zoomLevel record. -/
theorem updateStateEmitsOnlyPatchKeysWitness :
    filterFC (updateState 3 preloadAlways 1000 patchZoomTwo smM0).2.trace =
      filterFC ([] : List Event) ++
      (changeRecords patchZoomTwo { navS0 with isTransitioning := true }).map (mkFCEvent 1000) :=
  (updateStateEmitsOnlyPatchKeys 3 preloadAlways 1000 patchZoomTwo navS0 none []
    (updateState 3 preloadAlways 1000 patchZoomTwo smM0).2 (by decide)).1

/-- C2 counterexample. updateState with partial selectedNode 2 on the fresh
store changes observable state (selectedNode becomes some 2), yet at the
moment the call completes (clock 1000, equal to the final lastUpdate) the
isTransitioning flag is already false, no finalizeTransition timer is
pending, and no transition:end event was ever emitted: the flag does not
stay true for the minimum transition duration after lastUpdate. -/
theorem selectionClearsFlagEarly :
    (updateState 3 preloadAlways 1000 patchSelectTwo smM0).2.st.selectedNode = some 2 ∧
    (updateState 3 preloadAlways 1000 patchSelectTwo smM0).2.st.isTransitioning = false ∧
    (updateState 3 preloadAlways 1000 patchSelectTwo smM0).2.pending = none ∧
    (updateState 3 preloadAlways 1000 patchSelectTwo smM0).2.st.lastUpdate = 1000 ∧
    Event.transitionEnd ∉ (updateState 3 preloadAlways 1000 patchSelectTwo smM0).2.trace := by
  decide

/-- C2 amended: after an updateState call that completes normally, the flag
is still true, lastUpdate is stamped with the call time, and the scheduled
finalizeTransition, the only step of such a run that clears the flag and
emits transition:end, is pending for lastUpdate plus the minimum transition
time, so the flag stays up for at least the minimum duration measured from
lastUpdate. Calls that merge isTransitioning false or throw clear the flag
immediately instead (see the counterexample). -/
theorem okUpdateSchedulesMinimumTransition (fuel : Nat) (preload : Nat → Bool) (now : Nat)
    (p : Patch) (S : NavState) (pend : Option Nat) (tr : List Event) (m2 : SMState)
    (h : updateState fuel preload now p ⟨S, pend, tr⟩ = (.ok true, m2)) :
    m2.st.isTransitioning = true ∧
    m2.st.lastUpdate = now ∧
    m2.pending = some (now + minTransitionTime) ∧
    m2.st.lastUpdate + minTransitionTime ≤ now + minTransitionTime ∧
    (finalizeTransition m2).st.isTransitioning = false ∧
    (finalizeTransition m2).trace = m2.trace ++ [Event.transitionEnd] := by
  cases fuel with
  | zero => simp [updateState] at h
  | succ n =>
    obtain ⟨bb, m3, hh, rfl⟩ := updateState_ok_shape n preload now p S pend tr m2 h
    have hpres := stateChange_ok n preload now _ _ bb m3 hh
    have hflag : m3.st.isTransitioning = true := by simpa using hpres.2
    simp [endTransition, minTransitionTime, finalizeTransition, emitEv, hflag]

/-- C2 witness: the concrete zoomLevel run completes with the flag up and
finalizeTransition scheduled for 1100, one hundred past its lastUpdate. -/
theorem okUpdateSchedulesMinimumTransitionWitness :
    (updateState 3 preloadAlways 1000 patchZoomTwo smM0).2.st.isTransitioning = true ∧
    (updateState 3 preloadAlways 1000 patchZoomTwo smM0).2.st.lastUpdate = 1000 ∧
    (updateState 3 preloadAlways 1000 patchZoomTwo smM0).2.pending = some (1000 + minTransitionTime) :=
  have h := okUpdateSchedulesMinimumTransition 3 preloadAlways 1000 patchZoomTwo navS0 none []
    (updateState 3 preloadAlways 1000 patchZoomTwo smM0).2 (by decide)
  ⟨h.1, h.2.1, h.2.2.1⟩

/-- C3: whenever updateState rejects with an exception e (thrown during the
merge or the side-effect handlers and caught by handleTransitionError), the
final state stores e in state.error, has isError true and isTransitioning
force-cleared to false, and the call itself ends in the error outcome, so
the exception propagates to the caller instead of a normal return. -/
theorem updateStateErrorSetsErrorState (fuel : Nat) (preload : Nat → Bool) (now : Nat)
    (p : Patch) (m : SMState) (e : JsError) (m2 : SMState)
    (h : updateState fuel preload now p m = (.error e, m2)) :
    m2.st.error = some e ∧ m2.st.isError = true ∧ m2.st.isTransitioning = false := by
  cases fuel with
  | zero => simp [updateState] at h
  | succ n =>
    by_cases hd : m.st.isDestroying
    · simp [updateState, hd] at h
    · rw [Bool.not_eq_true] at hd
      simp only [updateState, hd, Bool.false_eq_true, if_false] at h
      split at h
      · rename_i bb m3 heq
        simp at h
      · rename_i e2 m3 heq
        obtain ⟨rfl, rfl⟩ := h
        simp [handleTransitionError, emitEv]
      · rename_i m3 heq
        simp at h

/-- C3 witness: the concrete selection run rejects with the TypeError thrown
by the missing transition-change handler, and the final state records it. -/
theorem updateStateErrorSetsErrorStateWitness :
    (updateState 3 preloadAlways 1000 patchSelectTwo smM0).2.st.error = some transitionChangeErr ∧
    (updateState 3 preloadAlways 1000 patchSelectTwo smM0).2.st.isError = true ∧
    (updateState 3 preloadAlways 1000 patchSelectTwo smM0).2.st.isTransitioning = false :=
  updateStateErrorSetsErrorState 3 preloadAlways 1000 patchSelectTwo smM0 transitionChangeErr
    (updateState 3 preloadAlways 1000 patchSelectTwo smM0).2 (by decide)

/-- C5: the selection-change handler issues no preload request for a node
whose id is already in contentLoaded and leaves the set unchanged; for a new
node whose id is not yet in the set it issues exactly one preload request,
and on success adds the id to the set (on a rejected preload the id is not
added); with no new node it issues no request at all. -/
theorem preloadIdempotent (fuel : Nat) (preload : Nat → Bool) (now : Nat)
    (nn oldN : Option Nat) (S : NavState) (pend : Option Nat) (tr : List Event)
    (hd : S.isDestroying = false) :
    (∀ id, nn = some id → id ∈ S.contentLoaded →
      countPreload (handleSelectionChange (updateState (fuel + 1) preload now) preload
          nn oldN ⟨S, pend, tr⟩).2.trace id = countPreload tr id ∧
      (handleSelectionChange (updateState (fuel + 1) preload now) preload
          nn oldN ⟨S, pend, tr⟩).2.st.contentLoaded = S.contentLoaded) ∧
    (∀ id, nn = some id → id ∉ S.contentLoaded →
      countPreload (handleSelectionChange (updateState (fuel + 1) preload now) preload
          nn oldN ⟨S, pend, tr⟩).2.trace id = countPreload tr id + 1 ∧
      (preload id = true →
        (handleSelectionChange (updateState (fuel + 1) preload now) preload
            nn oldN ⟨S, pend, tr⟩).2.st.contentLoaded = S.contentLoaded.insert id) ∧
      (preload id = false →
        (handleSelectionChange (updateState (fuel + 1) preload now) preload
            nn oldN ⟨S, pend, tr⟩).2.st.contentLoaded = S.contentLoaded)) ∧
    (nn = none → ∀ id,
      countPreload (handleSelectionChange (updateState (fuel + 1) preload now) preload
          nn oldN ⟨S, pend, tr⟩).2.trace id = countPreload tr id) := by
  refine ⟨?_, ?_, ?_⟩
  · rintro id rfl hmem
    simp [handleSelectionChange, updateState_transTrue, updateState_transFalse, hd,
          emitEv, hmem, countPreload, List.filter_append]
  · rintro id rfl hmem
    cases hp : preload id with
    | true =>
      simp [handleSelectionChange, updateState_transTrue, updateState_transFalse, hd,
            emitEv, hmem, hp, countPreload, List.filter_append]
    | false =>
      simp [handleSelectionChange, updateState_transTrue, updateState_transFalse, hd,
            emitEv, hmem, hp, countPreload, List.filter_append]
  · rintro rfl id
    simp [handleSelectionChange, updateState_transTrue, updateState_transFalse, hd,
          emitEv, countPreload, List.filter_append]

/-- C5 witness: selecting the fresh node 7 with an empty contentLoaded set
issues exactly one preload request and adds 7 to the set. -/
theorem preloadIdempotentWitness :
    countPreload (handleSelectionChange (updateState 2 preloadAlways 1000) preloadAlways
        (some 7) none smM0).2.trace 7 = countPreload [] 7 + 1 ∧
    (handleSelectionChange (updateState 2 preloadAlways 1000) preloadAlways
        (some 7) none smM0).2.st.contentLoaded = navS0.contentLoaded.insert 7 :=
  have h := (preloadIdempotent 1 preloadAlways 1000 (some 7) none navS0 none []
    (by decide)).2.1 7 rfl (by decide)
  ⟨h.1, h.2.1 rfl⟩

/-- C4 evaluation at the failing input. destroy on a freshly constructed
manager does not complete: after the isDestroying update it reaches
removeEventListeners, whose call to this.state.removeAllListeners throws a
TypeError (StateManager defines no removeAllListeners), so the first destroy
rejects, the state reference is never cleared, none of the tracking maps is
emptied, and a second destroy call throws the same TypeError instead of
being an idempotent no-op. -/
theorem destroyAlwaysThrows :
    (managerDestroy 3 preloadAlways 1000 mgr0).1 = Outcome.error removeAllListenersErr ∧
    (managerDestroy 3 preloadAlways 1000 mgr0).2.state ≠ none ∧
    (managerDestroy 3 preloadAlways 1000 mgr0).2.nodeElements = [0, 1, 2] ∧
    (managerDestroy 3 preloadAlways 1000 mgr0).2.pathElements = [(0, 1), (0, 2)] ∧
    (managerDestroy 3 preloadAlways 1000 mgr0).2.indicatorElements = [3, 4] ∧
    (managerDestroy 3 preloadAlways 1000 mgr0).2.labelElements = [3, 4] ∧
    (managerDestroy 3 preloadAlways 2000
        (managerDestroy 3 preloadAlways 1000 mgr0).2).1
      = Outcome.error removeAllListenersErr := by
  decide

/-- C6 counterexample. With the root selected, the active path from root to
the selection is empty, so no link lies on it; yet isActivePath classifies
the link from the root to node 1 (and indeed every link) as active: active
is not equivalent to lying on the root-to-selection path. -/
theorem rootSelectionMakesAllLinksActive :
    isActivePath exTree (some ⟨0, 1⟩) (some 0) = true ∧
    spec_linkOnRootPath exTree ⟨0, 1⟩ 0 = false := by
  decide

/-- C6 amended: both predicates are total and return false for a null link
or null selection; on a well-formed tree every link that lies on the
root-to-selection path is classified active, but the active class is
strictly larger (every link is active under a root selection, a depth-1
selection also activates its outgoing child links, and a depth-2 selection
activates every link into it and every link out of its parent); for depth-1
selections the sibling predicate coincides with sharing the active-path
source while leading to a different target. -/
theorem pathPredicatesCharacterisation :
    (∀ t l, isActivePath t l none = false ∧ isSiblingPath t l none = false) ∧
    (∀ t s, isActivePath t none (some s) = false ∧ isSiblingPath t none (some s) = false) ∧
    (∀ t l s, WellFormedAt t s → spec_linkOnRootPath t l s = true →
      isActivePath t (some l) (some s) = true) ∧
    (∀ t l s, t.depth s = 1 →
      (isSiblingPath t (some l) (some s) = true ↔
        ∃ p, t.parent s = some p ∧ l.source = p ∧ l.target ≠ s)) := by
  refine ⟨?_, ?_, ?_, ?_⟩
  · intro t l
    cases l <;> simp [isActivePath, isSiblingPath]
  · intro t s
    simp [isActivePath, isSiblingPath]
  · rintro t l s ⟨hs2, h1, h2, hroot⟩ hon
    unfold spec_linkOnRootPath at hon
    have hd : t.depth s = 0 ∨ t.depth s = 1 ∨ t.depth s = 2 := by omega
    rcases hd with hd | hd | hd
    · simp [isActivePath, hd]
    · rw [hd] at hon
      rcases hps : t.parent s with _ | pp
      · simp [ancestorChain, hps] at hon
      · have hdp : t.depth pp = 0 := by
          have := h1 pp hps
          omega
        have hppn : t.parent pp = none := hroot pp hdp
        simp [ancestorChain, hps, hppn] at hon
        simp [isActivePath, hd, hps, hon.1, hon.2]
    · rw [hd] at hon
      rcases hps : t.parent s with _ | pp
      · simp [ancestorChain, hps] at hon
      · rcases hpp : t.parent pp with _ | gp
        · simp [ancestorChain, hps, hpp] at hon
          simp [isActivePath, hd, hps, hpp, hon.1]
        · have hdpp : t.depth pp = 1 := by
            have := h1 pp hps
            omega
          have hdg : t.depth gp = 0 := by
            have := h2 pp gp hps hpp
            omega
          have hgn : t.parent gp = none := hroot gp hdg
          simp [ancestorChain, hps, hpp, hgn] at hon
          rcases hon with ⟨h3, h4⟩ | ⟨h3, h4⟩
          · simp [isActivePath, hd, hps, hpp, h3]
          · simp [isActivePath, hd, hps, hpp, h3, h4]
  · intro t l s hd1
    simp only [isSiblingPath, hd1, if_pos]
    rcases hps : t.parent s with _ | pp <;> simp [hps]

/-- C6 witness: on the example tree, the link from the root to node 1 lies
on the path to the selected node 1 and is classified active. -/
theorem pathPredicatesCharacterisationWitness :
    isActivePath exTree (some ⟨0, 1⟩) (some 1) = true :=
  pathPredicatesCharacterisation.2.2.1 exTree ⟨0, 1⟩ 1
    (by
      refine ⟨by decide, ?_, ?_, ?_⟩
      · intro p hp
        simp [exTree, exTreeParent] at hp
        subst hp
        decide
      · intro p gp hp hgp
        simp [exTree, exTreeParent] at hp
        subst hp
        simp [exTree, exTreeParent] at hgp
      · intro x hx
        simp only [exTree, exTreeDepth] at hx
        simp only [exTree, exTreeParent]
        split_ifs at hx <;> simp_all)
    (by decide)

/-- C7 counterexample. With breakpoints small 480 and medium 1024, a width
of 800 satisfies width below medium, so calculateDimensions selects the
tablet profile, not the desktop profile the claim names. -/
theorem width800YieldsTablet :
    calculateDimensionsProfile 800 480 1024 = Profile.tablet ∧
    calculateDimensionsProfile 800 480 1024 ≠ Profile.desktop := by
  decide

/-- C7 amended: profile selection follows the breakpoints applied to the
window inner width: below small gives mobile, otherwise below medium gives
tablet, otherwise desktop; in particular a width of 800 with breakpoints
small 480 and medium 1024 yields the tablet profile. -/
theorem profileBreakpointCharacterisation (width small medium : Nat) :
    (getActiveProfile width small medium = Profile.mobile ↔ width < small) ∧
    (getActiveProfile width small medium = Profile.tablet ↔ ¬width < small ∧ width < medium) ∧
    (getActiveProfile width small medium = Profile.desktop ↔ ¬width < small ∧ ¬width < medium) := by
  unfold getActiveProfile
  by_cases h1 : width < small <;> by_cases h2 : width < medium <;> simp [h1, h2]

/-- C8: for each of the three reconcilers, an update call that arrives while
the isUpdating flag of a still-in-flight previous update is set is a no-op:
it returns the state unchanged and starts nothing; and of two back-to-back
updates on an idle instance, the first runs and the second is dropped, so
only the first settles into the tracked element map (which the finally
clause leaves untouched when clearing the flag). -/
theorem reconcilerReentrancyGuard :
    (∀ (r : NodeRec) d, r.isUpdating = true → nodeManagerUpdate r d = (r, false)) ∧
    (∀ (r : PathRec) d, r.isUpdating = true → pathManagerUpdate r d = (r, false)) ∧
    (∀ (r : OuterRec) d, r.isUpdating = true → outerManagerUpdate r d = (r, false)) ∧
    (∀ (r0 : NodeRec) d1 d2, r0.isUpdating = false →
      (nodeManagerUpdate r0 (some d1)).2 = true ∧
      nodeManagerUpdate (nodeManagerUpdate r0 (some d1)).1 (some d2)
        = ((nodeManagerUpdate r0 (some d1)).1, false) ∧
      (nodeSettle (nodeManagerUpdate r0 (some d1)).1).nodeElements
        = (nodeManagerUpdate r0 (some d1)).1.nodeElements) ∧
    (∀ (r0 : PathRec) d1 d2, r0.isUpdating = false →
      (pathManagerUpdate r0 (some d1)).2 = true ∧
      pathManagerUpdate (pathManagerUpdate r0 (some d1)).1 (some d2)
        = ((pathManagerUpdate r0 (some d1)).1, false) ∧
      (pathSettle (pathManagerUpdate r0 (some d1)).1).pathElements
        = (pathManagerUpdate r0 (some d1)).1.pathElements) ∧
    (∀ (r0 : OuterRec) d1 d2, r0.isUpdating = false →
      (outerManagerUpdate r0 (some d1)).2 = true ∧
      outerManagerUpdate (outerManagerUpdate r0 (some d1)).1 (some d2)
        = ((outerManagerUpdate r0 (some d1)).1, false) ∧
      (outerSettle (outerManagerUpdate r0 (some d1)).1).indicatorElements
        = (outerManagerUpdate r0 (some d1)).1.indicatorElements ∧
      (outerSettle (outerManagerUpdate r0 (some d1)).1).labelElements
        = (outerManagerUpdate r0 (some d1)).1.labelElements) := by
  refine ⟨?_, ?_, ?_, ?_, ?_, ?_⟩
  · intro r d h
    cases d <;> simp [nodeManagerUpdate, h]
  · intro r d h
    cases d <;> simp [pathManagerUpdate, h]
  · intro r d h
    cases d <;> simp [outerManagerUpdate, h]
  · intro r0 d1 d2 h
    refine ⟨by simp [nodeManagerUpdate, h], ?_, by simp [nodeManagerUpdate, nodeSettle, h]⟩
    simp [nodeManagerUpdate, h]
  · intro r0 d1 d2 h
    refine ⟨by simp [pathManagerUpdate, h], ?_, by simp [pathManagerUpdate, pathSettle, h]⟩
    simp [pathManagerUpdate, h]
  · intro r0 d1 d2 h
    refine ⟨by simp [outerManagerUpdate, h], ?_,
      by simp [outerManagerUpdate, outerSettle, h],
      by simp [outerManagerUpdate, outerSettle, h]⟩
    simp [outerManagerUpdate, h]

/-- C8 witness: an in-flight node reconciler drops a second update, and an
idle one starts its update. -/
theorem reconcilerReentrancyGuardWitness :
    nodeManagerUpdate ⟨true, [1]⟩ (some ⟨[⟨1, 0⟩], []⟩) = (⟨true, [1]⟩, false) ∧
    pathManagerUpdate ⟨true, [(0, 1)]⟩ (some ⟨[], []⟩) = (⟨true, [(0, 1)]⟩, false) ∧
    (nodeManagerUpdate ⟨false, []⟩ (some ⟨[⟨1, 0⟩], []⟩)).2 = true :=
  ⟨reconcilerReentrancyGuard.1 ⟨true, [1]⟩ (some ⟨[⟨1, 0⟩], []⟩) (by decide),
   reconcilerReentrancyGuard.2.1 ⟨true, [(0, 1)]⟩ (some ⟨[], []⟩) (by decide),
   (reconcilerReentrancyGuard.2.2.2.1 ⟨false, []⟩ ⟨[⟨1, 0⟩], []⟩ ⟨[], []⟩ (by decide)).1⟩

/-- C9: when the text has more than one word and exceeds the long-text
threshold or has more than two words, the label layout is two lines split at
a point mid that is the median word boundary, the ceiling of half the word
count, moved one word earlier when the joined first half is more than one
and a half times as long as the joined second half; the two lines are the
joins of the first mid words and the remaining words, which together are
exactly the original words in order. All other texts stay a single line. -/
theorem labelLayoutMedianSplit (text : String) (thr : Nat) :
    ((jsSplitOnSpace text).length > 1 ∧
        (text.length > thr ∨ (jsSplitOnSpace text).length > 2) →
      ∃ mid,
        mid = (let m0 := ((jsSplitOnSpace text).length + 1) / 2
               if 2 * (String.intercalate spaceStr ((jsSplitOnSpace text).take m0)).length >
                  3 * (String.intercalate spaceStr ((jsSplitOnSpace text).drop m0)).length
               then m0 - 1 else m0) ∧
        calculateLabelLayout text thr =
          { kind := .double,
            firstLine := String.intercalate spaceStr ((jsSplitOnSpace text).take mid),
            secondLine := String.intercalate spaceStr ((jsSplitOnSpace text).drop mid) } ∧
        (jsSplitOnSpace text).take mid ++ (jsSplitOnSpace text).drop mid
          = jsSplitOnSpace text) ∧
    (¬((jsSplitOnSpace text).length > 1 ∧
        (text.length > thr ∨ (jsSplitOnSpace text).length > 2)) →
      calculateLabelLayout text thr = { kind := .single, text := text }) := by
  constructor
  · intro hcond
    refine ⟨_, rfl, ?_, List.take_append_drop _ _⟩
    unfold calculateLabelLayout
    rw [if_pos hcond]
  · intro hcond
    unfold calculateLabelLayout
    rw [if_neg hcond]

/-- C9 witness: a three-word text above the threshold splits at the median
into its first word and the join of the remaining two. -/
theorem labelLayoutMedianSplitWitness :
    calculateLabelLayout exLabelText 10 =
      { kind := .double, firstLine := exLabelFirst, secondLine := exLabelSecond } := by
  obtain ⟨mid, hmid, heq, -⟩ := (labelLayoutMedianSplit exLabelText 10).1 (by decide)
  subst hmid
  exact heq

/-- C10: on a tree in which no node is its own parent, the node styling
predicates are mutually exclusive: no candidate node is classified both
active and sibling for any selection, including the empty one. -/
theorem activeSiblingExclusive (t : TreeModel) (n : Nat) (sel : Option Nat)
    (hwf : ∀ m, t.parent m ≠ some m) :
    ¬(isActiveNode t n sel = true ∧ isSiblingNode t n sel = true) := by
  rintro ⟨hact, hsib⟩
  cases sel with
  | none => simp [isSiblingNode] at hsib
  | some s =>
    by_cases hz : t.depth n = 0
    · simp [isSiblingNode, hz] at hsib
    · simp [isSiblingNode, hz] at hsib
      rcases hps : t.parent s with _ | p
      · simp [isActiveNode, hps, hz] at hact
        exact hsib.2 hact
      · simp [isActiveNode, hps, hz] at hact
        rcases hact with h | h
        · exact hsib.2 h
        · subst h
          exact hwf n (hsib.1.trans hps)

/-- C10 witness: on the example tree, node 2 under selection 1 (a sibling)
is not also active. -/
theorem activeSiblingExclusiveWitness :
    ¬(isActiveNode exTree 2 (some 1) = true ∧ isSiblingNode exTree 2 (some 1) = true) :=
  activeSiblingExclusive exTree 2 (some 1)
    (by
      intro m h
      simp only [exTree, exTreeParent] at h
      split_ifs at h <;> simp_all <;> omega)

end CNav

